import Mathlib

/-!
Verification of the DockerMastery backend service (`src/backend/server.js`)
against its natural-language specification.

The Express request handlers are shallowly embedded as pure Lean functions.
External effects (PostgreSQL queries, Redis get/setEx/del/ping, `Date`,
`Math.random`) are resolved through an explicit per-request environment
`Env`: a Boolean field per external call records whether that call succeeds
or throws, and data fields carry the values the runtime would supply
(current time, ISO timestamp, driver error messages, random draws, result
rows).  The Redis cache is an explicit association list of keyed entries
with absolute expiry times; the PostgreSQL `users` table is a list of rows
plus the next SERIAL id.  Each handler returns the HTTP response
(status code and JSON body) together with the updated store state,
following the control flow of the JavaScript source line by line:
a `try { ... } catch` block becomes a cascade of tests on the
environment's success flags, where any failing call short-circuits to the
catch branch's response.
-/

/-- One entry of the `services` array of the `/api/status` payload
(`server.js` lines 120-124). -/
structure ServiceEntry where
  name : String
  status : String
  uptime : String
deriving DecidableEq, Repr

/-- The JSON body built by `/api/status` on a cache miss
(`statusData`, `server.js` lines 119-126). -/
structure StatusData where
  services : List ServiceEntry
  timestamp : String
deriving DecidableEq, Repr

/-- The JSON body built by `/api/metrics` on a cache miss
(`metrics`, `server.js` lines 146-152). -/
structure MetricsData where
  activeUsers : Nat
  totalRequests : Nat
  averageResponseTime : Nat
  uptime : String
  timestamp : String
deriving DecidableEq, Repr

/-- The `services` object of the healthy `/health` body
(`server.js` lines 86-90). -/
structure HealthServices where
  database : String
  redis : String
  api : String
deriving DecidableEq, Repr

/-- The `/health` response body.  On success (`server.js` lines 83-91) the
`services` breakdown is present and `errMsg` absent; in the catch branch
(lines 94-98) the body carries only `status`, `timestamp` and the raw
`error.message`, with no `services` field. -/
structure HealthBody where
  status : String
  timestamp : String
  services : Option HealthServices
  errMsg : Option String
deriving DecidableEq, Repr

/-- A row of the `users` table (`id SERIAL PRIMARY KEY, name, email UNIQUE,
created_at`, migration lines 11-17). -/
structure UserRow where
  id : Nat
  name : String
  email : String
  createdAt : String
deriving DecidableEq, Repr

/-- A value stored in Redis by this service: the serialized `statusData`
or `metrics` object (`JSON.stringify` at lines 128 and 154).  Both are
recovered intact by `JSON.parse` on a hit, so we keep them typed. -/
inductive CacheVal where
  | statusVal (d : StatusData)
  | metricsVal (m : MetricsData)
deriving DecidableEq, Repr

/-- One Redis key with its value and absolute expiry time (seconds),
as set by `setEx(key, ttl, value)`. -/
structure CacheEntry where
  key : String
  val : CacheVal
  expiresAt : Nat
deriving DecidableEq, Repr

/-- The Redis keyspace touched by this service. -/
abbrev CacheState := List CacheEntry

/-- Embeds `redisClient.get(key)`: the stored value, provided it has not expired. -/
def cacheGet (c : CacheState) (now : Nat) (k : String) : Option CacheVal :=
  match c.find? (fun e => e.key == k) with
  | some e => if now < e.expiresAt then some e.val else none
  | none => none

/-- Embeds `redisClient.setEx(key, ttl, v)`: store `v` under `k`, expiring
`ttl` seconds from now, replacing any previous entry for `k`. -/
def cacheSetEx (c : CacheState) (now ttl : Nat) (k : String) (v : CacheVal) : CacheState :=
  ⟨k, v, now + ttl⟩ :: c.filter (fun e => e.key != k)

/-- Embeds `redisClient.del(key)`: drop every entry stored under `k`. -/
def cacheDel (c : CacheState) (k : String) : CacheState :=
  c.filter (fun e => e.key != k)

/-- Per-request environment: one success flag per external call a handler
makes (a `false` flag means that call throws), plus the data the runtime
supplies during the request. -/
structure Env where
  /-- Current time in seconds, for cache expiry. -/
  now : Nat
  /-- Value of `new Date().toISOString()`. -/
  nowISO : String
  /-- Whether `redisClient.get` succeeds. -/
  cacheGetOk : Bool
  /-- Whether `pool.query` succeeds (connection and query both fine). -/
  dbOk : Bool
  /-- Whether `redisClient.setEx` succeeds. -/
  cacheSetOk : Bool
  /-- Whether `redisClient.del` succeeds. -/
  cacheDelOk : Bool
  /-- Whether `redisClient.ping` succeeds. -/
  pingOk : Bool
  /-- The `error.message` of a failing `pool.query`. -/
  dbErrMsg : String
  /-- The `error.message` of a failing `redisClient.ping`. -/
  pingErrMsg : String
  /-- The rows returned by the liveness query of `/api/status`
  (`result.rows`; the handler never reads them). -/
  dbRows : List (String × String × String)
  /-- Draw for `Math.floor(Math.random() * 200)` (activeUsers). -/
  randA : Nat
  /-- Draw for `Math.floor(Math.random() * 10000)` (totalRequests). -/
  randB : Nat
  /-- Draw for `Math.floor(Math.random() * 100)` (averageResponseTime). -/
  randC : Nat
deriving DecidableEq, Repr

/-- An HTTP response body, one constructor per JSON shape the handlers
produce. -/
inductive RespBody where
  | statusB (d : StatusData)
  | metricsB (m : MetricsData)
  | healthB (h : HealthBody)
  | userB (u : UserRow)
  | errorB (msg : String)
deriving DecidableEq, Repr

/-- What a cache hit responds with: `res.json(JSON.parse(cached))`
(`server.js` lines 108-110 and 142-144). -/
def CacheVal.toBody : CacheVal → RespBody
  | .statusVal d => .statusB d
  | .metricsVal m => .metricsB m

/-- The cache key of `/api/status` (`server.js` line 105). -/
def statusKey : String := "system:status"

/-- The cache key of `/api/metrics` (`server.js` line 139). -/
def metricsKey : String := "system:metrics"

/-- Handler of `GET /health` (`server.js` lines 75-100): `pool.query('SELECT 1')`,
then `redisClient.ping()`, both inside one try block; 200 `healthy` with
the services breakdown when both succeed, else the catch branch answers
503 `unhealthy` carrying only the first failure's `error.message`. -/
def getHealth (env : Env) : Nat × RespBody :=
  if env.dbOk = false then
    (503, .healthB ⟨"unhealthy", env.nowISO, none, some env.dbErrMsg⟩)
  else if env.pingOk = false then
    (503, .healthB ⟨"unhealthy", env.nowISO, none, some env.pingErrMsg⟩)
  else
    (200, .healthB ⟨"healthy", env.nowISO, some ⟨"connected", "connected", "running"⟩, none⟩)

/-- The constant `statusData` object built on the fresh path of
`/api/status` (`server.js` lines 119-126). -/
def freshStatusData (env : Env) : StatusData :=
  { services := [
      ⟨"Backend API", "healthy", "2h 34m"⟩,
      ⟨"Database", "healthy", "2h 34m"⟩,
      ⟨"Redis Cache", "healthy", "2h 34m"⟩ ],
    timestamp := env.nowISO }

/-- Handler of `GET /api/status` (`server.js` lines 103-135): Redis read first; on a
hit return the parsed cached value; on a miss run the liveness query,
build `statusData`, `setEx` it for 60 s and return it.  Any throwing call
(`get`, `query`, `setEx`) lands in the catch branch: 500
`Internal server error`, cache unchanged. -/
def getStatus (env : Env) (cache : CacheState) : (Nat × RespBody) × CacheState :=
  if env.cacheGetOk = false then ((500, .errorB "Internal server error"), cache)
  else
    match cacheGet cache env.now statusKey with
    | some v => ((200, v.toBody), cache)
    | none =>
      if env.dbOk = false then ((500, .errorB "Internal server error"), cache)
      else
        let statusData := freshStatusData env
        if env.cacheSetOk = false then ((500, .errorB "Internal server error"), cache)
        else ((200, .statusB statusData),
              cacheSetEx cache env.now 60 statusKey (.statusVal statusData))

/-- The `metrics` object built on the fresh path of `/api/metrics`
(`server.js` lines 146-152); `Math.floor(Math.random() * n)` is embedded
as a draw reduced mod `n`, giving exactly the range `[0, n)`. -/
def freshMetrics (env : Env) : MetricsData :=
  { activeUsers := env.randA % 200 + 50,
    totalRequests := env.randB % 10000 + 5000,
    averageResponseTime := env.randC % 100 + 50,
    uptime := "2h 34m",
    timestamp := env.nowISO }

/-- Handler of `GET /api/metrics` (`server.js` lines 137-161): same read-through
shape as `/api/status` but with no database query, a 30 s TTL and its own
key.  A throwing `get` or `setEx` lands in the catch branch: 500. -/
def getMetrics (env : Env) (cache : CacheState) : (Nat × RespBody) × CacheState :=
  if env.cacheGetOk = false then ((500, .errorB "Internal server error"), cache)
  else
    match cacheGet cache env.now metricsKey with
    | some v => ((200, v.toBody), cache)
    | none =>
      let metrics := freshMetrics env
      if env.cacheSetOk = false then ((500, .errorB "Internal server error"), cache)
      else ((200, .metricsB metrics),
            cacheSetEx cache env.now 30 metricsKey (.metricsVal metrics))

/-- Server-side persistent state: the `users` table (with its SERIAL
counter) and the Redis keyspace. -/
structure ServerState where
  users : List UserRow
  nextId : Nat
  cache : CacheState
deriving DecidableEq, Repr

/-- Handler of `POST /api/users` (`server.js` lines 180-201): 400 when `name` or
`email` is falsy (absent or empty); otherwise `INSERT ... RETURNING *`,
which throws on the `users.email` UNIQUE constraint (migration line 14)
and adds no row; then `redisClient.del('system:metrics')`; then 201 with
the created row.  Any throwing call after validation lands in the catch
branch: 500 — in particular a throwing `del` happens after the insert
committed, so the row stays. -/
def createUser (env : Env) (name email : Option String) (st : ServerState) :
    (Nat × RespBody) × ServerState :=
  match name, email with
  | some n, some e =>
    if n == "" || e == "" then ((400, .errorB "Name and email are required"), st)
    else if env.dbOk = false then ((500, .errorB "Internal server error"), st)
    else if st.users.any (fun u => u.email == e) then
      ((500, .errorB "Internal server error"), st)
    else
      let u : UserRow := ⟨st.nextId, n, e, env.nowISO⟩
      let st1 : ServerState := ⟨st.users ++ [u], st.nextId + 1, st.cache⟩
      if env.cacheDelOk = false then ((500, .errorB "Internal server error"), st1)
      else ((201, .userB u), ⟨st1.users, st1.nextId, cacheDel st1.cache metricsKey⟩)
  | _, _ => ((400, .errorB "Name and email are required"), st)

/-- Embeds `windowMs: 15 * 60 * 1000` (`server.js` line 68), in milliseconds. -/
def windowMs : Nat := 15 * 60 * 1000

/-- Embeds `max: 100` (`server.js` line 69). -/
def maxRequests : Nat := 100

/-- The fixed rejection message (`server.js` line 70). -/
def rateLimitMessage : String := "Too many requests from this IP, please try again later."

/-- One client identity's fixed-window counter (spec §3 RateLimitWindow). -/
structure RateWindow where
  windowStart : Nat
  count : Nat
deriving DecidableEq, Repr

/-- Outcome of admission control for one request. -/
inductive Admit where
  | admitted
  | rejected (status : Nat) (msg : String)
deriving DecidableEq, Repr

/-- Modelled from the spec: the fixed-window counter of the
`express-rate-limit` dependency, whose source is not part of this
repository — `server.js` lines 66-72 only configure it with `windowMs`,
`max` and `message` and mount it on `/api/`.  Spec §4.4: if no window
exists or the window has expired, start a new window with count 1 and
admit; otherwise increment, and admit while the count stays within the
limit, else reject with 429 and the fixed message. -/
def limiterStep (now : Nat) (w : Option RateWindow) : Admit × Option RateWindow :=
  match w with
  | none => (.admitted, some ⟨now, 1⟩)
  | some ⟨start, c⟩ =>
    if start + windowMs ≤ now then (.admitted, some ⟨now, 1⟩)
    else if c + 1 ≤ maxRequests then (.admitted, some ⟨start, c + 1⟩)
    else (.rejected 429 rateLimitMessage, some ⟨start, c + 1⟩)

/-- Run the admission controller over a sequence of request times from one
client identity, collecting each request's outcome. -/
def runLimiter : List Nat → Option RateWindow → List Admit × Option RateWindow
  | [], w => ([], w)
  | t :: ts, w =>
    let p := limiterStep t w
    let q := runLimiter ts p.2
    (p.1 :: q.1, q.2)

/-- A concrete all-calls-succeed environment used to instantiate the
theorems on explicit inputs. -/
def envOK : Env :=
  { now := 1000,
    nowISO := "2026-01-01T00:00:00.000Z",
    cacheGetOk := true,
    dbOk := true,
    cacheSetOk := true,
    cacheDelOk := true,
    pingOk := true,
    dbErrMsg := "connect ECONNREFUSED 127.0.0.1:5432",
    pingErrMsg := "Connection is closed.",
    dbRows := [("backend", "healthy", "2026-01-01T00:00:00.000Z")],
    randA := 0,
    randB := 0,
    randC := 0 }

/-- A concrete table state holding one of the migration's seed users
(migration lines 35-41). -/
def stSeed : ServerState :=
  { users := [⟨1, "John Doe", "john.doe@example.com", "2025-07-09T08:58:50.000Z"⟩],
    nextId := 2,
    cache := [] }

/-- The `services` breakdown carried by a response body, when the body is
a `/health` body that has one. -/
def RespBody.servicesDetail : RespBody → Option HealthServices
  | .healthB hb => hb.services
  | _ => none

/-! ## Helper lemmas about the cache -/

/-- Filtering away every entry of key `k` leaves nothing for `find?` on
key `k` to return. -/
lemma find?_key_filter_ne (c : CacheState) (k : String) :
    (c.filter (fun e => e.key != k)).find? (fun e => e.key == k) = none := by
  simp only [List.find?_eq_none, List.mem_filter]
  intro x hx
  simpa using hx.2

/-- Reading a key right after deleting it misses, at any time. -/
lemma cacheGet_del (c : CacheState) (t : Nat) (k : String) :
    cacheGet (cacheDel c k) t k = none := by
  unfold cacheGet cacheDel
  rw [find?_key_filter_ne]

/-- Reading a key that was just written hits, as long as the read happens
before the entry's expiry. -/
lemma cacheGet_setEx_hit (c : CacheState) (now ttl t : Nat) (k : String) (v : CacheVal)
    (h : t < now + ttl) :
    cacheGet (cacheSetEx c now ttl k v) t k = some v := by
  simp [cacheGet, cacheSetEx, List.find?_cons, h]

/-! ## Helper lemmas about the admission controller -/

/-- Within a live window, the outcome of each successive request depends
only on its position: it is admitted exactly while the running count stays
within the limit. -/
lemma runLimiter_get?_in_window (t0 : Nat) (ts : List Nat)
    (h : ∀ t ∈ ts, t < t0 + windowMs) :
    ∀ c i, i < ts.length →
      (runLimiter ts (some ⟨t0, c⟩)).1.get? i =
        some (if c + i + 1 ≤ maxRequests then Admit.admitted
              else Admit.rejected 429 rateLimitMessage) := by
  induction ts with
  | nil => intro c i hi; simp at hi
  | cons t ts ih =>
    intro c i hi
    have hnot : ¬ t0 + windowMs ≤ t := Nat.not_le.2 (h t (List.mem_cons_self _ _))
    have hrest : ∀ x ∈ ts, x < t0 + windowMs := fun x hx => h x (List.mem_cons_of_mem _ hx)
    cases i with
    | zero =>
      by_cases hc : c + 1 ≤ maxRequests <;> simp [runLimiter, limiterStep, hnot, hc]
    | succ j =>
      have hj : j < ts.length := Nat.lt_of_succ_lt_succ (by simpa using hi)
      have hrec := ih hrest (c + 1) j hj
      have harith : c + 1 + j + 1 = c + (j + 1) + 1 := by omega
      rw [harith] at hrec
      by_cases hc : c + 1 ≤ maxRequests <;>
        simpa [runLimiter, limiterStep, hnot, hc] using hrec

/-- Within a live window, processing a batch of requests only advances the
window's count, by exactly the batch size. -/
lemma runLimiter_state_in_window (t0 : Nat) (ts : List Nat)
    (h : ∀ t ∈ ts, t < t0 + windowMs) :
    ∀ c, (runLimiter ts (some ⟨t0, c⟩)).2 = some ⟨t0, c + ts.length⟩ := by
  induction ts with
  | nil => intro c; simp [runLimiter]
  | cons t ts ih =>
    intro c
    have hnot : ¬ t0 + windowMs ≤ t := Nat.not_le.2 (h t (List.mem_cons_self _ _))
    have hrest : ∀ x ∈ ts, x < t0 + windowMs := fun x hx => h x (List.mem_cons_of_mem _ hx)
    have hrec := ih hrest (c + 1)
    by_cases hc : c + 1 ≤ maxRequests <;>
      simp [runLimiter, limiterStep, hnot, hc, hrec, RateWindow.mk.injEq] <;>
      omega

/-! ## Claim C1 -/

/-- C1 counterexample: with the cache store unreachable (the Redis `get`
throws) and an empty cache, `GET /api/status` and `GET /api/metrics`
answer 500 `Internal server error` — not 200 with freshly computed data:
the cache failure is turned into a client-visible error. -/
theorem cacheFailure_visible_counterexample :
    (getStatus { envOK with cacheGetOk := false } []).1 = (500, .errorB "Internal server error") ∧
    (getStatus { envOK with cacheGetOk := false } []).1.1 ≠ 200 ∧
    (getMetrics { envOK with cacheGetOk := false } []).1 = (500, .errorB "Internal server error") ∧
    (getMetrics { envOK with cacheGetOk := false } []).1.1 ≠ 200 :=
  ⟨rfl, by decide, rfl, by decide⟩

/-- C1 (amended): a cache-layer failure inside `getStatus`/`getMetrics` is
not absorbed: a throwing Redis `get`, and equally a throwing `setEx` on
the fresh-compute path, lands in the handler's catch branch and produces a
client-visible 500 `Internal server error` instead of a 200 with freshly
computed data. -/
theorem cacheFailure_maps_to_500 (env envS : Env) (cache : CacheState)
    (hget : env.cacheGetOk = false)
    (hgetS : envS.cacheGetOk = true)
    (hmissS : cacheGet cache envS.now statusKey = none)
    (hmissM : cacheGet cache envS.now metricsKey = none)
    (hdbS : envS.dbOk = true) (hsetS : envS.cacheSetOk = false) :
    (getStatus env cache).1 = (500, .errorB "Internal server error") ∧
    (getMetrics env cache).1 = (500, .errorB "Internal server error") ∧
    (getStatus envS cache).1 = (500, .errorB "Internal server error") ∧
    (getMetrics envS cache).1 = (500, .errorB "Internal server error") := by
  refine ⟨?_, ?_, ?_, ?_⟩ <;>
    simp [getStatus, getMetrics, hget, hgetS, hmissS, hmissM, hdbS, hsetS]

/-- Witness for `cacheFailure_maps_to_500` at concrete inputs. -/
theorem cacheFailure_maps_to_500_witness :
    (getStatus { envOK with cacheGetOk := false } []).1 = (500, .errorB "Internal server error") ∧
    (getMetrics { envOK with cacheGetOk := false } []).1 = (500, .errorB "Internal server error") ∧
    (getStatus { envOK with cacheSetOk := false } []).1 = (500, .errorB "Internal server error") ∧
    (getMetrics { envOK with cacheSetOk := false } []).1 = (500, .errorB "Internal server error") :=
  cacheFailure_maps_to_500 { envOK with cacheGetOk := false } { envOK with cacheSetOk := false } []
    rfl rfl rfl rfl rfl rfl

/-! ## Claim C3 -/

/-- C3 counterexample: with a failing relational probe (cache read fine but
`pool.query` throws) and an empty cache, `GET /api/status` aborts the whole
request with 500 `Internal server error` — it does not return a snapshot
with the database service downgraded to `error`. -/
theorem probeFailure_aborts_counterexample :
    (getStatus { envOK with dbOk := false } []).1 = (500, .errorB "Internal server error") ∧
    (getStatus { envOK with dbOk := false } []).1.1 ≠ 200 :=
  ⟨rfl, by decide⟩

/-- C3 (amended): a failing relational probe inside `getStatus` aborts the
whole aggregation: on a cache miss with a throwing `pool.query` the
request answers 500 `Internal server error` with the cache untouched; no
snapshot with a single service downgraded to `error` is ever produced
(`getMetrics` has no relational probe at all, and fresh snapshots list
every service as `healthy`). -/
theorem probeFailure_aborts_request (env : Env) (cache : CacheState)
    (hget : env.cacheGetOk = true)
    (hmiss : cacheGet cache env.now statusKey = none)
    (hdb : env.dbOk = false) :
    getStatus env cache = ((500, .errorB "Internal server error"), cache) := by
  simp [getStatus, hget, hmiss, hdb]

/-- Witness for `probeFailure_aborts_request` at concrete inputs. -/
theorem probeFailure_aborts_request_witness :
    getStatus { envOK with dbOk := false } [] = ((500, .errorB "Internal server error"), []) :=
  probeFailure_aborts_request { envOK with dbOk := false } [] rfl rfl rfl

/-! ## Claim C4 -/

/-- C4 counterexample: creating a user whose email duplicates a seeded row
leaves the table unchanged (no second row) but answers 500
`Internal server error` — a server error, not the claimed client error /
409 conflict. -/
theorem duplicateEmail_counterexample :
    (createUser envOK (some "Johnny") (some "john.doe@example.com") stSeed).1 =
      (500, .errorB "Internal server error") ∧
    (createUser envOK (some "Johnny") (some "john.doe@example.com") stSeed).1.1 ≠ 409 ∧
    (createUser envOK (some "Johnny") (some "john.doe@example.com") stSeed).2 = stSeed :=
  ⟨rfl, by decide, rfl⟩

/-- C4 (amended): `createUser` with an email duplicating an existing row
creates no second row (the `users.email` UNIQUE constraint makes the
insert throw, and the catch branch leaves the state untouched), but the
uniqueness violation is not distinguished: the response is the generic 500
`Internal server error`, not a 409 client error. -/
theorem duplicateEmail_500_no_row (env : Env) (st : ServerState) (n e : String)
    (hn : (n == "") = false) (he : (e == "") = false)
    (hdb : env.dbOk = true)
    (hdup : st.users.any (fun u => u.email == e) = true) :
    createUser env (some n) (some e) st = ((500, .errorB "Internal server error"), st) := by
  simp [createUser, hn, he, hdb, hdup]

/-- Witness for `duplicateEmail_500_no_row` at concrete inputs. -/
theorem duplicateEmail_500_no_row_witness :
    createUser envOK (some "Johnny") (some "john.doe@example.com") stSeed =
      ((500, .errorB "Internal server error"), stSeed) :=
  duplicateEmail_500_no_row envOK stSeed "Johnny" "john.doe@example.com" rfl rfl rfl rfl

/-! ## Claim C9 -/

/-- C9: `POST /api/users` is not atomic on error: when the insert succeeds
but the awaited `redisClient.del('system:metrics')` throws, the client
receives 500 `Internal server error` even though the new user row was
created and persists in the table. -/
theorem createUser_non_atomic (env : Env) (st : ServerState) (n e : String)
    (hn : (n == "") = false) (he : (e == "") = false)
    (hdb : env.dbOk = true) (hdel : env.cacheDelOk = false)
    (hfresh : st.users.any (fun u => u.email == e) = false) :
    (createUser env (some n) (some e) st).1 = (500, .errorB "Internal server error") ∧
    (createUser env (some n) (some e) st).2.users =
      st.users ++ [⟨st.nextId, n, e, env.nowISO⟩] := by
  refine ⟨?_, ?_⟩ <;> simp [createUser, hn, he, hdb, hdel, hfresh]

/-- Witness for `createUser_non_atomic` at concrete inputs. -/
theorem createUser_non_atomic_witness :
    (createUser { envOK with cacheDelOk := false } (some "Jane") (some "jane@x.com") stSeed).1 =
      (500, .errorB "Internal server error") ∧
    (createUser { envOK with cacheDelOk := false } (some "Jane") (some "jane@x.com") stSeed).2.users =
      stSeed.users ++ [⟨stSeed.nextId, "Jane", "jane@x.com",
        ({ envOK with cacheDelOk := false } : Env).nowISO⟩] :=
  createUser_non_atomic { envOK with cacheDelOk := false } stSeed "Jane" "jane@x.com"
    rfl rfl rfl rfl rfl

/-! ## Claim C2 -/

/-- C2: fixed-window admission control.  A fresh client identity opens its
window at time `t0`; with 100 further requests inside that window,
requests 1 through 100 are admitted, request 101 is rejected with 429 and
the fixed message, and the first request at or past the window boundary is
admitted again. -/
theorem rateLimiter_window_trace (t0 : Nat) (ts : List Nat)
    (hlen : ts.length = 100)
    (hwin : ∀ t ∈ ts, t < t0 + windowMs)
    (t' : Nat) (ht' : t0 + windowMs ≤ t') :
    (∀ i, i < 100 → (runLimiter (t0 :: ts) none).1.get? i = some Admit.admitted) ∧
    (runLimiter (t0 :: ts) none).1.get? 100 = some (Admit.rejected 429 rateLimitMessage) ∧
    (limiterStep t' (runLimiter (t0 :: ts) none).2).1 = Admit.admitted := by
  have hrun : runLimiter (t0 :: ts) none =
      (Admit.admitted :: (runLimiter ts (some ⟨t0, 1⟩)).1,
       (runLimiter ts (some ⟨t0, 1⟩)).2) := rfl
  refine ⟨?_, ?_, ?_⟩
  · intro i hi
    rw [hrun]
    cases i with
    | zero => rfl
    | succ j =>
      have hj : j < ts.length := by omega
      have h1 := runLimiter_get?_in_window t0 ts hwin 1 j hj
      have hcond : 1 + j + 1 ≤ maxRequests := by unfold maxRequests; omega
      rw [if_pos hcond] at h1
      simpa using h1
  · have h1 := runLimiter_get?_in_window t0 ts hwin 1 99 (by omega)
    rw [if_neg (by unfold maxRequests; omega)] at h1
    rw [hrun]
    exact h1
  · have hst := runLimiter_state_in_window t0 ts hwin 1
    rw [hlen] at hst
    rw [hrun, hst]
    simp [limiterStep, ht']

/-- Witness for `rateLimiter_window_trace` at concrete inputs: 101
requests from one identity inside one window, then one more at the window
boundary. -/
theorem rateLimiter_window_trace_witness :
    (runLimiter (0 :: List.replicate 100 1) none).1.get? 42 = some Admit.admitted ∧
    (runLimiter (0 :: List.replicate 100 1) none).1.get? 100 =
      some (Admit.rejected 429 rateLimitMessage) ∧
    (limiterStep windowMs (runLimiter (0 :: List.replicate 100 1) none).2).1 =
      Admit.admitted := by
  have h := rateLimiter_window_trace 0 (List.replicate 100 1) (by simp)
    (by
      intro t ht
      rw [List.eq_of_mem_replicate ht]
      decide)
    windowMs (by omega)
  exact ⟨h.1 42 (by omega), h.2.1, h.2.2⟩

/-! ## Claim C5 -/

/-- Whenever `createUser` answers 201, it took the full success path, so
the returned state's cache is the input cache with the metrics key
deleted. -/
lemma createUser_201_cache (env : Env) (n e : Option String) (st : ServerState)
    (h : (createUser env n e st).1.1 = 201) :
    (createUser env n e st).2.cache = cacheDel st.cache metricsKey := by
  match n, e with
  | none, none => simp [createUser] at h
  | none, some _ => simp [createUser] at h
  | some n', none => simp [createUser] at h
  | some n', some e' =>
    by_cases h1 : (n' == "" || e' == "") = true
    · simp [createUser, h1] at h
    · by_cases h2 : env.dbOk = false
      · simp [createUser, h1, h2] at h
      · by_cases h3 : st.users.any (fun u => u.email == e') = true
        · simp [createUser, h1, h2, h3] at h
        · by_cases h4 : env.cacheDelOk = false
          · simp [createUser, h1, h2, h3, h4] at h
          · simp [createUser, h1, h2, h3, h4, cacheDel]

/-- C5: after a successful (201) `createUser`, the metrics cache entry is
deleted, so a following `getMetrics` misses the cache and recomputes a
fresh snapshot from the follow-up request's own environment rather than
returning a value generated before the creation. -/
theorem createUser_invalidates_metrics (env env2 : Env) (n e : Option String)
    (st : ServerState)
    (h : (createUser env n e st).1.1 = 201)
    (hget2 : env2.cacheGetOk = true) (hset2 : env2.cacheSetOk = true) :
    cacheGet (createUser env n e st).2.cache env2.now metricsKey = none ∧
    (getMetrics env2 (createUser env n e st).2.cache).1 =
      (200, .metricsB (freshMetrics env2)) := by
  have hc := createUser_201_cache env n e st h
  rw [hc]
  have hm : cacheGet (cacheDel st.cache metricsKey) env2.now metricsKey = none :=
    cacheGet_del _ _ _
  exact ⟨hm, by simp [getMetrics, hget2, hm, hset2]⟩

/-- Witness for `createUser_invalidates_metrics` at concrete inputs. -/
theorem createUser_invalidates_metrics_witness :
    cacheGet (createUser envOK (some "Jane") (some "jane@x.com") stSeed).2.cache
      envOK.now metricsKey = none ∧
    (getMetrics envOK (createUser envOK (some "Jane") (some "jane@x.com") stSeed).2.cache).1 =
      (200, .metricsB (freshMetrics envOK)) :=
  createUser_invalidates_metrics envOK envOK (some "Jane") (some "jane@x.com") stSeed
    rfl rfl rfl

/-! ## Claim C6 -/

/-- C6 counterexample: when the relational probe fails, the 503 `/health`
body carries no `services` breakdown at all (while the healthy 200 body
does carry one) — so the unhealthy answer has no per-dependency detail. -/
theorem health_detail_counterexample :
    (getHealth { envOK with dbOk := false }).1 = 503 ∧
    ((getHealth { envOK with dbOk := false }).2).servicesDetail = none ∧
    ((getHealth envOK).2).servicesDetail = some ⟨"connected", "connected", "running"⟩ :=
  ⟨rfl, rfl, rfl⟩

/-- C6 (amended): `getHealth` is uncached and probes the relational store
first and then the cache store on each call; it answers 200 `healthy` with
the services breakdown when both probes succeed, and 503 `unhealthy` when
either fails — but the failure body carries only the failing probe's raw
error message, with no per-dependency detail, and a relational failure
means the cache probe never runs. -/
theorem health_endpoint_behavior (env : Env) :
    (env.dbOk = true → env.pingOk = true →
      getHealth env = (200, .healthB ⟨"healthy", env.nowISO,
        some ⟨"connected", "connected", "running"⟩, none⟩)) ∧
    (env.dbOk = false →
      getHealth env = (503, .healthB ⟨"unhealthy", env.nowISO, none, some env.dbErrMsg⟩)) ∧
    (env.dbOk = true → env.pingOk = false →
      getHealth env = (503, .healthB ⟨"unhealthy", env.nowISO, none, some env.pingErrMsg⟩)) := by
  refine ⟨fun h1 h2 => ?_, fun h1 => ?_, fun h1 h2 => ?_⟩ <;> simp [getHealth, h1, *]

/-- Witness for `health_endpoint_behavior` at a concrete input. -/
theorem health_endpoint_behavior_witness :
    getHealth envOK = (200, RespBody.healthB ⟨"healthy", envOK.nowISO,
      some ⟨"connected", "connected", "running"⟩, none⟩) :=
  (health_endpoint_behavior envOK).1 rfl rfl

/-! ## Claim C7 -/

/-- C7: cache-hit determinism.  When `getStatus` computes and caches a
fresh snapshot, a second `getStatus` call within the snapshot's 60-second
TTL (and with a working cache read, no invalidation in between) returns
the identical response: the cached value is served back verbatim. -/
theorem status_cache_hit_determinism (env1 env2 : Env) (cache : CacheState)
    (h1get : env1.cacheGetOk = true)
    (hmiss : cacheGet cache env1.now statusKey = none)
    (hdb : env1.dbOk = true) (hset : env1.cacheSetOk = true)
    (h2get : env2.cacheGetOk = true)
    (_hle : env1.now ≤ env2.now) (hlt : env2.now < env1.now + 60) :
    (getStatus env2 (getStatus env1 cache).2).1 = (getStatus env1 cache).1 := by
  have h1 : getStatus env1 cache =
      ((200, .statusB (freshStatusData env1)),
       cacheSetEx cache env1.now 60 statusKey (.statusVal (freshStatusData env1))) := by
    simp [getStatus, h1get, hmiss, hdb, hset]
  rw [h1]
  have hhit := cacheGet_setEx_hit cache env1.now 60 env2.now statusKey
    (.statusVal (freshStatusData env1)) hlt
  simp [getStatus, h2get, hhit, CacheVal.toBody]

/-- Witness for `status_cache_hit_determinism` at concrete inputs: the
second call happens 30 seconds after the first. -/
theorem status_cache_hit_determinism_witness :
    (getStatus { envOK with now := 1030 } (getStatus envOK []).2).1 =
      (getStatus envOK []).1 :=
  status_cache_hit_determinism envOK { envOK with now := 1030 } []
    rfl rfl rfl rfl rfl (by decide) (by decide)

/-! ## Claim C8 -/

/-- C8: a freshly computed 200 snapshot of `GET /api/status` is a
constant: exactly the three services `Backend API`, `Database`,
`Redis Cache`, each `healthy` with the fixed uptime label `2h 34m`, and
the request's timestamp — and the rows of the relational liveness query
are never inspected, so the response does not change with them. -/
theorem fresh_status_constant (env : Env) (cache : CacheState)
    (rows : List (String × String × String))
    (hmiss : cacheGet cache env.now statusKey = none)
    (h200 : (getStatus env cache).1.1 = 200) :
    (getStatus env cache).1.2 = .statusB
      ⟨[⟨"Backend API", "healthy", "2h 34m"⟩,
        ⟨"Database", "healthy", "2h 34m"⟩,
        ⟨"Redis Cache", "healthy", "2h 34m"⟩], env.nowISO⟩ ∧
    getStatus { env with dbRows := rows } cache = getStatus env cache := by
  constructor
  · by_cases h1 : env.cacheGetOk = false
    · simp [getStatus, h1] at h200
    · by_cases h2 : env.dbOk = false
      · simp [getStatus, h1, hmiss, h2] at h200
      · by_cases h3 : env.cacheSetOk = false
        · simp [getStatus, h1, hmiss, h2, h3] at h200
        · simp [getStatus, h1, hmiss, h2, h3, freshStatusData]
  · rfl

/-- Witness for `fresh_status_constant` at concrete inputs. -/
theorem fresh_status_constant_witness :
    (getStatus envOK []).1.2 = RespBody.statusB
      ⟨[⟨"Backend API", "healthy", "2h 34m"⟩,
        ⟨"Database", "healthy", "2h 34m"⟩,
        ⟨"Redis Cache", "healthy", "2h 34m"⟩], envOK.nowISO⟩ ∧
    getStatus { envOK with dbRows := [] } [] = getStatus envOK [] :=
  fresh_status_constant envOK [] [] rfl rfl

/-! ## Claim C10 -/

/-- C10: when the relational probe fails, `GET /health` answers 503 whose
body exposes the raw driver `error.message` and carries no per-dependency
`services` breakdown; and the response is independent of the cache probe's
outcome — the cache is never probed after a database failure. -/
theorem health_failure_opaque_body (env : Env) (b : Bool) (h : env.dbOk = false) :
    getHealth env = (503, .healthB ⟨"unhealthy", env.nowISO, none, some env.dbErrMsg⟩) ∧
    getHealth { env with pingOk := b } = getHealth env := by
  constructor
  · simp [getHealth, h]
  · have h2 : ({ env with pingOk := b } : Env).dbOk = false := h
    simp [getHealth, h, h2]

/-- Witness for `health_failure_opaque_body` at concrete inputs. -/
theorem health_failure_opaque_body_witness :
    getHealth { envOK with dbOk := false } =
      (503, RespBody.healthB ⟨"unhealthy", ({ envOK with dbOk := false } : Env).nowISO, none,
        some ({ envOK with dbOk := false } : Env).dbErrMsg⟩) ∧
    getHealth { { envOK with dbOk := false } with pingOk := false } =
      getHealth { envOK with dbOk := false } :=
  health_failure_opaque_body { envOK with dbOk := false } false rfl
